import Mathlib

/-!
Shallow embedding of `clrs/_src/baselines.py` (JAX CLRS baseline models):
training/inference orchestration for the CLRS benchmark.  Numeric tensors,
network forward passes, loss numerics, gradients and the Adam optimizer are
external collaborators of that module; they are represented here by opaque
value types (`Int` scalars) and by explicitly passed collaborator functions,
while everything the module itself does — parameter-tree filtering and
merging, loss-term composition, node-count inference, checkpoint save and
restore, the freeze-processor update path and the chunked recurrent-state
threading — is translated faithfully from the source.
-/

namespace Clrs

/-- Location tag of a field, from `specs.Location`. -/
inductive Location where
  | NODE
  | EDGE
  | GRAPH
deriving DecidableEq, Repr

/-- A numeric tensor, abstracted to its shape (the module under study only
ever reads shapes of data arrays). -/
structure Tensor where
  shape : List Nat
deriving DecidableEq, Repr

/-- A named data point of a trajectory, from `probing.DataPoint`. -/
structure DataPoint where
  name : String
  location : Location
  data : Tensor
deriving DecidableEq, Repr

/-- Features of a feedback bundle (`samplers.Features` /
`samplers.FeaturesChunked`): named inputs and hints plus per-sample lengths;
the chunked variant additionally carries `is_first` / `is_last` markers,
which the non-chunked code paths never read. -/
structure Features where
  inputs : List DataPoint
  hints : List DataPoint
  lengths : Int := 0
  is_first : Int := 0
  is_last : Int := 0
deriving DecidableEq, Repr

/-- A feedback bundle (`samplers.Feedback`): features plus ground-truth
outputs. -/
structure Feedback where
  features : Features
  outputs : List DataPoint
deriving DecidableEq, Repr

/-- One leaf of a haiku parameter tree: module path, parameter name, value. -/
structure PEntry where
  module : String
  key : String
  value : Int
deriving DecidableEq, Repr

/-- A haiku parameter tree (`hk.Params`), flattened to its leaves. -/
abbrev Params := List PEntry

/-- Opaque optimizer state (`optax.OptState`). -/
abbrev OptState := Int

/-- Whether `needle` occurs contiguously at the head of `hay`. -/
def leadMatch : List Char → List Char → Bool
  | [], _ => true
  | _ :: _, [] => false
  | a :: as, b :: bs => a == b && leadMatch as bs

/-- Whether `needle` occurs contiguously anywhere in `hay` (Python's
`needle in hay` on strings). -/
def hasSub (needle : List Char) : List Char → Bool
  | [] => leadMatch needle []
  | b :: bs => leadMatch needle (b :: bs) || hasSub needle bs

/-- Python's substring test `needle in hay`. -/
def strIn (needle hay : String) : Bool :=
  hasSub needle.toList hay.toList

/-- Source `_filter_processor`: keep exactly the leaves whose module path
contains the substring `construct_processor`
(`hk.data_structures.filter`). -/
def _filter_processor (params : Params) : Params :=
  params.filter (fun e => strIn "construct_processor" e.module)

/-- Whether the parameter tree has a leaf for the given module path and
parameter name. -/
def hasParam (params : Params) (m k : String) : Bool :=
  params.any (fun e => e.module == m && e.key == k)

/-- Value of the leaf at the given module path and parameter name, if any. -/
def lookupParam (params : Params) (m k : String) : Option Int :=
  (params.find? (fun e => e.module == m && e.key == k)).map (fun e => e.value)

/-- Source `hk.data_structures.merge(a, b)`: a tree holding every leaf of
`b`, plus the leaves of `a` whose key does not occur in `b` (later
structures take precedence on duplicate keys). -/
def mergeParams (a b : Params) : Params :=
  a.filter (fun e => !(hasParam b e.module e.key)) ++ b

/-- Source `optax.apply_updates(params, updates)`: add each update leaf to
the matching parameter leaf. -/
def apply_updates (params updates : Params) : Params :=
  params.map (fun e =>
    { e with value := e.value + ((lookupParam updates e.module e.key).getD 0) })

/-- The optimizer collaborator (`optax`): `update` maps gradients and state
to parameter updates and a new state. -/
structure Optimizer where
  update : Params → OptState → Params × OptState

/-- Source `BaselineModel._update_params`: run the optimizer, then — when
`freeze_processor` is set — restrict params and updates through
`_filter_processor`, apply the updates to that subset and merge the result
back over the full tree; otherwise apply the updates to the whole tree. -/
def _update_params (freeze_processor : Bool) (opt : Optimizer)
    (params grads : Params) (opt_state : OptState) : Params × OptState :=
  let r := opt.update grads opt_state
  let updates := r.1
  let opt_state2 := r.2
  if freeze_processor then
    let params_subset := _filter_processor params
    let updates_subset := _filter_processor updates
    let new_params := apply_updates params_subset updates_subset
    (mergeParams params new_params, opt_state2)
  else
    (apply_updates params updates, opt_state2)

/-- Error raised during `BaselineModel.__init__`: the explicit `ValueError`
for the invalid hint flag combination, the `AttributeError` hit when
`dummy_trajectory` is left at its `None` default and its `.features` is
read, or an `IndexError` reading `shape[-1]` of a rank-0 array. -/
inductive ConstructError where
  | invalid_hint_config
  | none_trajectory
  | shape_error
deriving DecidableEq, Repr

/-- The state built by a successful `BaselineModel.__init__`: the stored
flags and the feature-dimensions table `nb_dims`. -/
structure BaselineModelCore where
  decode_hints : Bool
  decode_diffs : Bool
  checkpoint_path : String
  freeze_processor : Bool
  nb_dims : List (String × Nat)
deriving DecidableEq, Repr

/-- Trailing (feature) dimension of a tensor, Python `data.shape[-1]`. -/
def shapeLast (t : Tensor) : Option Nat :=
  t.shape.getLast?

/-- The `nb_dims` table built by `BaselineModel.__init__` from the dummy
trajectory: one entry per input, hint and output field, mapping its name to
its trailing dimension. -/
def buildNbDims (traj : Feedback) : Option (List (String × Nat)) :=
  (traj.features.inputs ++ traj.features.hints ++ traj.outputs).mapM
    (fun dp => (shapeLast dp.data).map (fun d => (dp.name, d)))

/-- Source `BaselineModel.__init__`: first the `ValueError` when
`encode_hints` is set while `decode_hints` is not; then the `nb_dims` loops,
which dereference `dummy_trajectory` (failing when it is `None`, its
default) and read each field's trailing dimension. -/
def BaselineModel.construct (encode_hints decode_hints decode_diffs : Bool)
    (checkpoint_path : String) (freeze_processor : Bool)
    (dummy_trajectory : Option Feedback) :
    Except ConstructError BaselineModelCore :=
  if encode_hints && !decode_hints then
    .error .invalid_hint_config
  else
    match dummy_trajectory with
    | none => .error .none_trajectory
    | some traj =>
      match buildNbDims traj with
      | none => .error .shape_error
      | some nb_dims =>
        .ok { decode_hints := decode_hints, decode_diffs := decode_diffs,
              checkpoint_path := checkpoint_path,
              freeze_processor := freeze_processor, nb_dims := nb_dims }

/-- A checkpoint record: the pickled `{'params': ..., 'opt_state': ...}`
dictionary. -/
structure Checkpoint where
  params : Params
  opt_state : OptState
deriving DecidableEq, Repr

/-- The file-system state touched by checkpointing: existing directories
and the files' contents, newest first. -/
structure FileSys where
  dirs : List String
  files : List (String × Checkpoint)
deriving DecidableEq, Repr

/-- Error raised by `restore_model` when `open(path)` fails. -/
inductive FileError where
  | not_found
deriving DecidableEq, Repr

/-- The mutable model state relevant to checkpointing: the configured
checkpoint directory and the held parameters and optimizer state. -/
structure ModelState where
  checkpoint_path : String
  params : Params
  opt_state : OptState
deriving DecidableEq, Repr

/-- Python `os.path.join(dir, file_name)` in the ordinary relative case. -/
def path_join (dir file_name : String) : String :=
  dir ++ "/" ++ file_name

/-- Source `BaselineModel.save_model`: create the checkpoint directory if
absent (`os.makedirs(..., exist_ok=True)`), then write the
`{'params', 'opt_state'}` record at `<checkpoint_path>/<file_name>`,
shadowing any previous file there. -/
def save_model (fs : FileSys) (m : ModelState) (file_name : String) : FileSys :=
  let dirs := if fs.dirs.contains m.checkpoint_path then fs.dirs
              else m.checkpoint_path :: fs.dirs
  { dirs := dirs,
    files := (path_join m.checkpoint_path file_name,
              { params := m.params, opt_state := m.opt_state }) :: fs.files }

/-- Source `BaselineModel.restore_model`: open `<checkpoint_path>/<file_name>`
(failing when absent), unpickle the record, restrict the restored params
through `_filter_processor` when `only_load_processor` is set, merge them
over the held params, and replace the held optimizer state with the
record's. -/
def restore_model (fs : FileSys) (m : ModelState) (file_name : String)
    (only_load_processor : Bool) : Except FileError ModelState :=
  let path := path_join m.checkpoint_path file_name
  match fs.files.lookup path with
  | none => .error .not_found
  | some restored_state =>
    let restored_params :=
      if only_load_processor then _filter_processor restored_state.params
      else restored_state.params
    .ok { m with params := mergeParams m.params restored_params,
                 opt_state := restored_state.opt_state }

/-- The predicate of the loop condition in `_nb_nodes`:
`inp.location in [_Location.NODE, _Location.EDGE]`. -/
def locNodeEdge (dp : DataPoint) : Bool :=
  dp.location == Location.NODE || dp.location == Location.EDGE

/-- Source `_nb_nodes`: scan the feedback's input fields for the first one
located at node or edge level and return its nodes-axis extent — axis 2
when chunked (time x batch x nodes x ...), axis 1 otherwise
(batch x nodes x ...).  `none` models the `assert False` reached when no
such field exists (and an out-of-range axis read). -/
def _nb_nodes (feedback : Feedback) (is_chunked : Bool) : Option Nat :=
  match feedback.features.inputs.find? locNodeEdge with
  | some inp => inp.data.shape.get? (if is_chunked then 2 else 1)
  | none => none

/-- Output of the non-chunked network apply
(`output_preds, hint_preds, diff_logits, gt_diffs`): a dictionary of output
predictions, a per-step list of hint-prediction dictionaries, and opaque
diff logits and ground-truth diffs. -/
structure NetOut where
  output_preds : String → Int
  hint_preds : List (String → Int)
  diff_logits : Int
  gt_diffs : Int

/-- The non-chunked network collaborator `net_fn_apply`:
arguments are params, rng key, features and the `repred` toggle. -/
abbrev NetApply := Params → Int → Features → Bool → NetOut

/-- The loss collaborators of `clrs._src.losses` used on the non-chunked
path, kept abstract: `output_loss(truth, pred, nb_nodes)`,
`diff_loss(diff_logits, gt_diffs, lengths)` and
`hint_loss(truth, preds, gt_diffs, lengths, nb_nodes, decode_diffs)`. -/
structure LossFns where
  output_loss : DataPoint → Int → Nat → Int
  diff_loss : Int → Int → Int → Int
  hint_loss : DataPoint → List Int → Int → Int → Nat → Bool → Int

/-- The inner `loss` closure of `BaselineModel.update`: apply the network
with `repred=False`, then accumulate, starting from `0.0`, the output loss
over every output field, then the diff loss when `decode_diffs`, then the
hint loss over every hint field when `decode_hints`.  `none` models the
failure of `_nb_nodes`. -/
def lossNonChunked (decode_hints decode_diffs : Bool) (L : LossFns)
    (net : NetApply) (params : Params) (rng_key : Int)
    (feedback : Feedback) : Option Int :=
  let out := net params rng_key feedback.features false
  match _nb_nodes feedback false with
  | none => none
  | some nb_nodes =>
    let lengths := feedback.features.lengths
    let total0 : Int := 0
    let total1 := feedback.outputs.foldl
      (fun acc truth => acc + L.output_loss truth (out.output_preds truth.name) nb_nodes)
      total0
    let total2 := if decode_diffs
      then total1 + L.diff_loss out.diff_logits out.gt_diffs lengths
      else total1
    let total3 := if decode_hints
      then feedback.features.hints.foldl
        (fun acc truth => acc + L.hint_loss truth
          (out.hint_preds.map (fun x => x truth.name))
          out.gt_diffs lengths nb_nodes decode_diffs)
        total2
      else total2
    some total3

/-- The gradient collaborator: `jax.grad` of the loss closure in its first
argument, opaque to this module. -/
abbrev GradFn := Params → Int → Feedback → Params

/-- Source `BaselineModel.update`: compute the loss and the gradients, run
`_update_params`, and return the new parameters, new optimizer state and
the loss value. -/
def BaselineModel.update (decode_hints decode_diffs freeze_processor : Bool)
    (L : LossFns) (net : NetApply) (gradFn : GradFn) (opt : Optimizer)
    (rng_key : Int) (params : Params) (opt_state : OptState)
    (feedback : Feedback) : Option (Params × OptState × Int) :=
  match lossNonChunked decode_hints decode_diffs L net params rng_key feedback with
  | none => none
  | some lss =>
    let grads := gradFn params rng_key feedback
    let p := _update_params freeze_processor opt params grads opt_state
    some (p.1, p.2, lss)

/-- The chunked recurrent state (`nets.MessagePassingStateChunked`), opaque
to this module: it is produced and consumed only by the chunked network. -/
structure MPStateChunked where
  tag : Int
deriving DecidableEq, Repr

/-- Output of the chunked network apply: dictionaries of output and hint
predictions plus opaque diff logits and ground-truth diffs. -/
structure NetOutChunked where
  output_preds : String → Int
  hint_preds : String → Int
  diff_logits : Int
  gt_diffs : Int

/-- The chunked network collaborator `net_fn.apply`: params, rng key,
features, incoming message-passing state, the `repred` toggle and the
`init_mp_state` toggle; it returns predictions together with the outgoing
message-passing state. -/
abbrev NetApplyChunked :=
  Params → Int → Features → MPStateChunked → Bool → Bool →
    NetOutChunked × MPStateChunked

/-- Source `BaselineModelChunked._create_net_fns`: `net_fn_apply` is the
network apply with `init_mp_state` bound to `False`
(`functools.partial`). -/
def net_fn_apply_chunked (net : NetApplyChunked) (params : Params)
    (rng_key : Int) (features : Features) (mp_state : MPStateChunked)
    (repred : Bool) : NetOutChunked × MPStateChunked :=
  net params rng_key features mp_state repred false

/-- The chunked loss collaborators:
`output_loss_chunked(truth, pred, is_last, nb_nodes)`,
`diff_loss_chunked(diff_logits, gt_diffs, is_first)` and
`hint_loss_chunked(truth, pred, gt_diffs, is_first, nb_nodes,
decode_diffs)`. -/
structure LossFnsChunked where
  output_loss_chunked : DataPoint → Int → Int → Nat → Int
  diff_loss_chunked : Int → Int → Int → Int
  hint_loss_chunked : DataPoint → Int → Int → Int → Nat → Bool → Int

/-- The state held by `BaselineModelChunked` across `update` calls:
parameters, optimizer state and the message-passing state. -/
structure ChunkedModelState where
  params : Params
  opt_state : OptState
  mp_state : MPStateChunked
deriving DecidableEq, Repr

/-- Source `BaselineModelChunked.update`: run `net_fn_apply` (so with
`init_mp_state=False`) with `repred=False` against the held message-passing
state, getting predictions and the new message-passing state as the
auxiliary output of the loss; accumulate output, diff and hint chunked
losses under the same flags as the non-chunked path; run `_update_params`
on the gradients; store the auxiliary message-passing state and return the
new held state with the loss value. -/
def BaselineModelChunked.update (decode_hints decode_diffs freeze_processor : Bool)
    (L : LossFnsChunked) (net : NetApplyChunked) (gradFn : GradFn)
    (opt : Optimizer) (rng_key : Int) (st : ChunkedModelState)
    (feedback : Feedback) : Option (ChunkedModelState × Int) :=
  let applied := net_fn_apply_chunked net st.params rng_key feedback.features
    st.mp_state false
  let out := applied.1
  let new_mp_state := applied.2
  match _nb_nodes feedback true with
  | none => none
  | some nb_nodes =>
    let is_first := feedback.features.is_first
    let is_last := feedback.features.is_last
    let total0 : Int := 0
    let total1 := feedback.outputs.foldl
      (fun acc truth => acc + L.output_loss_chunked truth
        (out.output_preds truth.name) is_last nb_nodes)
      total0
    let total2 := if decode_diffs
      then total1 + L.diff_loss_chunked out.diff_logits out.gt_diffs is_first
      else total1
    let total3 := if decode_hints
      then feedback.features.hints.foldl
        (fun acc truth => acc + L.hint_loss_chunked truth
          (out.hint_preds truth.name) out.gt_diffs is_first nb_nodes decode_diffs)
        total2
      else total2
    let grads := gradFn st.params rng_key feedback
    let p := _update_params freeze_processor opt st.params grads st.opt_state
    some ({ params := p.1, opt_state := p.2, mp_state := new_mp_state }, total3)

/-- Error raised by the unsupported chunked-model operations
(`NotImplementedError`). -/
inductive RunError where
  | not_implemented
deriving DecidableEq, Repr

/-- Source `BaselineModelChunked.predict`: `raise NotImplementedError`,
unconditionally. -/
def BaselineModelChunked.predict (st : ChunkedModelState) (rng_key : Int)
    (features : Features) : Except RunError (List DataPoint) :=
  .error .not_implemented

/-- Source `BaselineModelChunked.verbose_loss`: `raise NotImplementedError`,
unconditionally. -/
def BaselineModelChunked.verbose_loss (st : ChunkedModelState)
    (feedback : Feedback) (extra_info : Int) :
    Except RunError (List (String × Int)) :=
  .error .not_implemented

/-! Helper lemmas about the parameter-tree and list operations. -/

/-- Left-folding `+ f x` over a list sums the mapped list. -/
theorem foldl_add_map_sum {α : Type} (f : α → Int) (l : List α) (init : Int) :
    l.foldl (fun acc x => acc + f x) init = init + (l.map f).sum := by
  induction l generalizing init with
  | nil => simp
  | cons a t ih => simp [ih, add_assoc]

/-- Filtering by a predicate implied by the search predicate does not change
the first hit. -/
theorem find?_filter_of_imp {α : Type} (p q : α → Bool) (l : List α)
    (h : ∀ x, p x = true → q x = true) :
    (l.filter q).find? p = l.find? p := by
  induction l with
  | nil => rfl
  | cons a t ih =>
    by_cases hq : q a = true
    · rw [List.filter_cons_of_pos hq]
      by_cases hp : p a = true
      · simp [List.find?_cons_of_pos, hp]
      · simp only [Bool.not_eq_true] at hp
        simp [List.find?_cons_of_neg, hp, ih]
    · simp only [Bool.not_eq_true] at hq
      rw [List.filter_cons_of_neg (by simp [hq])]
      have hp : p a = false := by
        cases hpa : p a with
        | false => rfl
        | true => rw [h a hpa] at hq; exact Bool.noConfusion hq
      simp [List.find?_cons_of_neg, hp, ih]

/-- A merge whose right tree covers every key of the left tree is the right
tree. -/
theorem mergeParams_eq_right (a b : Params)
    (h : ∀ e ∈ a, hasParam b e.module e.key = true) :
    mergeParams a b = b := by
  unfold mergeParams
  have hnil : a.filter (fun e => !(hasParam b e.module e.key)) = [] := by
    rw [List.filter_eq_nil_iff]
    intro e he
    simp [h e he]
  rw [hnil, List.nil_append]

/-- Looking a key up in a merge falls through to the left tree when the
right tree lacks the key. -/
theorem lookupParam_mergeParams_of_not_right (a b : Params) (m k : String)
    (hb : hasParam b m k = false) :
    lookupParam (mergeParams a b) m k = lookupParam a m k := by
  unfold lookupParam mergeParams
  rw [List.find?_append]
  have hbnone : b.find? (fun e => e.module == m && e.key == k) = none := by
    rw [List.find?_eq_none]
    intro x hx hpx
    have hany : b.any (fun e => e.module == m && e.key == k) = true :=
      List.any_eq_true.mpr ⟨x, hx, hpx⟩
    rw [hasParam] at hb
    rw [hany] at hb
    exact Bool.noConfusion hb
  rw [hbnone, Option.or_none]
  congr 1
  apply find?_filter_of_imp
  intro x hpx
  have hmk : (x.module == m) = true ∧ (x.key == k) = true := by simp at hpx; simpa using hpx
  have hm : x.module = m := eq_of_beq hmk.1
  have hk : x.key = k := eq_of_beq hmk.2
  rw [hm, hk]
  simp [hb]

/-- The processor filter produces no leaf whose module path lacks the
`construct_processor` substring. -/
theorem hasParam_filter_processor_eq_false (p : Params) (m k : String)
    (h : strIn "construct_processor" m = false) :
    hasParam (_filter_processor p) m k = false := by
  rw [Bool.eq_false_iff]
  intro htrue
  obtain ⟨e, he, hpe⟩ := List.any_eq_true.mp htrue
  obtain ⟨hmem, hproc⟩ := List.mem_filter.mp he
  have hm : e.module = m := by
    have hmk : (e.module == m) = true ∧ (e.key == k) = true := by simpa using hpe
    exact eq_of_beq hmk.1
  rw [hm, h] at hproc
  exact Bool.noConfusion hproc

/-! Claim theorems. -/

/-- C5: on the chunked model, `predict` fails immediately for every input
and `verbose_loss` fails immediately for every input, both unconditionally,
regardless of arguments or model state. -/
theorem chunked_predict_verbose_loss_always_fail (st : ChunkedModelState)
    (rng_key : Int) (features : Features) (st2 : ChunkedModelState)
    (feedback : Feedback) (extra_info : Int) :
    BaselineModelChunked.predict st rng_key features
      = .error .not_implemented ∧
    BaselineModelChunked.verbose_loss st2 feedback extra_info
      = .error .not_implemented :=
  ⟨rfl, rfl⟩

/-- C6: model construction fails with the invalid-hint-configuration error
exactly when `encode_hints` is true while `decode_hints` is false; for
every other combination of the two flags construction is never rejected on
this ground, whatever the other arguments. -/
theorem construct_invalid_hint_config_iff
    (encode_hints decode_hints decode_diffs : Bool)
    (checkpoint_path : String) (freeze_processor : Bool)
    (dummy_trajectory : Option Feedback) :
    (BaselineModel.construct encode_hints decode_hints decode_diffs
        checkpoint_path freeze_processor dummy_trajectory
      = .error .invalid_hint_config)
    ↔ (encode_hints = true ∧ decode_hints = false) := by
  unfold BaselineModel.construct
  by_cases h : (encode_hints && !decode_hints) = true
  · rw [if_pos h]
    simp at h
    simp [h]
  · rw [if_neg h]
    simp at h
    constructor
    · intro hcontra
      exfalso
      cases dummy_trajectory with
      | none => simp at hcontra
      | some traj =>
        cases hb : buildNbDims traj with
        | none => simp [hb] at hcontra
        | some nb_dims => simp [hb] at hcontra
    · intro hpair
      rw [hpair.1] at h
      rw [h rfl] at hpair
      exact Bool.noConfusion hpair.2

/-- C10: constructing a model while leaving `dummy_trajectory` at its
`None` default always fails, for every choice of the other constructor
arguments. -/
theorem construct_none_dummy_trajectory_always_fails
    (encode_hints decode_hints decode_diffs : Bool)
    (checkpoint_path : String) (freeze_processor : Bool) :
    ∃ err, BaselineModel.construct encode_hints decode_hints decode_diffs
        checkpoint_path freeze_processor none = .error err := by
  unfold BaselineModel.construct
  by_cases h : (encode_hints && !decode_hints) = true
  · exact ⟨.invalid_hint_config, by rw [if_pos h]⟩
  · exact ⟨.none_trajectory, by rw [if_neg h]⟩

/-- Optimizer used in the concrete freeze-processor run: it passes the
gradients through as updates. -/
def c1_opt : Optimizer :=
  { update := fun grads s => (grads, s + 1) }

/-- Parameter tree with one processor leaf and one non-processor leaf. -/
def c1_params : Params :=
  [{ module := "construct_processor/mpnn", key := "w", value := 0 },
   { module := "encoder/linear", key := "b", value := 5 }]

/-- Nonzero gradients for both leaves. -/
def c1_grads : Params :=
  [{ module := "construct_processor/mpnn", key := "w", value := 1 },
   { module := "encoder/linear", key := "b", value := 3 }]

/-- Loss collaborators returning zero everywhere. -/
def c1_L : LossFns :=
  { output_loss := fun _ _ _ => 0,
    diff_loss := fun _ _ _ => 0,
    hint_loss := fun _ _ _ _ _ _ => 0 }

/-- Network collaborator returning empty predictions. -/
def c1_net : NetApply :=
  fun _ _ _ _ =>
    { output_preds := fun _ => 0, hint_preds := [], diff_logits := 0,
      gt_diffs := 0 }

/-- Gradient collaborator returning `c1_grads`. -/
def c1_gradFn : GradFn :=
  fun _ _ _ => c1_grads

/-- Feedback with a single node-located input of batch 1 over 4 nodes. -/
def c1_feedback : Feedback :=
  { features := { inputs := [{ name := "A", location := Location.NODE,
                               data := { shape := [1, 4] } }],
                  hints := [] },
    outputs := [] }

/-- C1 (evaluation at the failing input): with `freeze_processor = true`,
one `update` call on a tree holding a processor leaf (value 0, gradient 1)
and a non-processor leaf (value 5, gradient 3) returns a tree whose
processor leaf CHANGED to 1 while the non-processor leaf is unchanged at 5
— the opposite of the claimed frame effect, because `_update_params`
restricts the update to the `construct_processor` subtree instead of to its
complement. -/
theorem freeze_processor_updates_only_processor :
    BaselineModel.update false false true c1_L c1_net c1_gradFn c1_opt 0
        c1_params 7 c1_feedback
      = some ([{ module := "encoder/linear", key := "b", value := 5 },
               { module := "construct_processor/mpnn", key := "w", value := 1 }],
              8, 0) ∧
    lookupParam c1_params "construct_processor/mpnn" "w" = some 0 ∧
    lookupParam c1_params "encoder/linear" "b" = some 5 := by
  exact ⟨rfl, rfl, rfl⟩

/-- C4: node-count inference reads the nodes-axis extent (axis 1 full,
axis 2 chunked) of the first node- or edge-located input field; it fails
when no such field exists; and its result depends only on the sublist of
node/edge-located input fields, hence is invariant to the order (and
content) of the other input fields. -/
theorem nb_nodes_first_node_edge_field :
    (∀ (fb : Feedback) (c : Bool) (inp : DataPoint),
        fb.features.inputs.find? locNodeEdge = some inp →
        _nb_nodes fb c = inp.data.shape.get? (if c then 2 else 1)) ∧
    (∀ (fb : Feedback) (c : Bool),
        fb.features.inputs.find? locNodeEdge = none →
        _nb_nodes fb c = none) ∧
    (∀ (f1 f2 : Feedback) (c : Bool),
        f1.features.inputs.filter locNodeEdge
          = f2.features.inputs.filter locNodeEdge →
        _nb_nodes f1 c = _nb_nodes f2 c) := by
  refine ⟨?_, ?_, ?_⟩
  · intro fb c inp h
    unfold _nb_nodes
    rw [h]
  · intro fb c h
    unfold _nb_nodes
    rw [h]
  · intro f1 f2 c h
    unfold _nb_nodes
    have e1 : f1.features.inputs.find? locNodeEdge
        = (f1.features.inputs.filter locNodeEdge).find? locNodeEdge :=
      (find?_filter_of_imp _ _ _ (fun _ hx => hx)).symm
    have e2 : f2.features.inputs.find? locNodeEdge
        = (f2.features.inputs.filter locNodeEdge).find? locNodeEdge :=
      (find?_filter_of_imp _ _ _ (fun _ hx => hx)).symm
    rw [e1, e2, h]

/-- Node-located input field with nodes-axis extent 5 (full) and 7
(chunked). -/
def c4_node_dp : DataPoint :=
  { name := "pos", location := Location.NODE, data := { shape := [4, 5, 7, 3] } }

/-- Graph-located input field, skipped by node-count inference. -/
def c4_graph_dp : DataPoint :=
  { name := "s", location := Location.GRAPH, data := { shape := [4, 9] } }

/-- Inputs with the graph field first. -/
def c4_fbA : Feedback :=
  { features := { inputs := [c4_graph_dp, c4_node_dp], hints := [] },
    outputs := [] }

/-- Same inputs with the graph field moved after the node field. -/
def c4_fbB : Feedback :=
  { features := { inputs := [c4_node_dp, c4_graph_dp], hints := [] },
    outputs := [] }

/-- Inputs with no node- or edge-located field. -/
def c4_fbNone : Feedback :=
  { features := { inputs := [c4_graph_dp], hints := [] }, outputs := [] }

/-- Witness for C4: instantiates all three parts on concrete feedbacks. -/
theorem nb_nodes_first_node_edge_field_witness :
    (c4_fbA.features.inputs.find? locNodeEdge = some c4_node_dp) ∧
    _nb_nodes c4_fbA true = c4_node_dp.data.shape.get? (if true then 2 else 1) ∧
    (c4_fbNone.features.inputs.find? locNodeEdge = none) ∧
    _nb_nodes c4_fbNone false = none ∧
    (c4_fbA.features.inputs.filter locNodeEdge
      = c4_fbB.features.inputs.filter locNodeEdge) ∧
    _nb_nodes c4_fbA false = _nb_nodes c4_fbB false :=
  ⟨by rfl,
   nb_nodes_first_node_edge_field.1 c4_fbA true c4_node_dp (by rfl),
   by rfl,
   nb_nodes_first_node_edge_field.2.1 c4_fbNone false (by rfl),
   by rfl,
   nb_nodes_first_node_edge_field.2.2 c4_fbA c4_fbB false (by rfl)⟩

/-- C2: the scalar loss of the non-chunked `update` is the sum of the
output losses over every output field (always), plus the diff loss exactly
when `decode_diffs`, plus the hint losses over every hint field exactly
when `decode_hints`; and with `decode_hints` disabled the loss is
independent of the hint-loss collaborator, so no hint-loss term
contributes. -/
theorem update_loss_decomposition (decode_hints decode_diffs : Bool)
    (L : LossFns) (net : NetApply) (params : Params) (rng_key : Int)
    (feedback : Feedback) (n : Nat)
    (hn : _nb_nodes feedback false = some n) :
    (lossNonChunked decode_hints decode_diffs L net params rng_key feedback
      = some (
        (feedback.outputs.map (fun truth => L.output_loss truth
          ((net params rng_key feedback.features false).output_preds truth.name)
          n)).sum
        + (if decode_diffs then
            L.diff_loss (net params rng_key feedback.features false).diff_logits
              (net params rng_key feedback.features false).gt_diffs
              feedback.features.lengths
          else 0)
        + (if decode_hints then
            (feedback.features.hints.map (fun truth => L.hint_loss truth
              ((net params rng_key feedback.features false).hint_preds.map
                (fun x => x truth.name))
              (net params rng_key feedback.features false).gt_diffs
              feedback.features.lengths n decode_diffs)).sum
          else 0)))
    ∧ (decode_hints = false → ∀ L2 : LossFns,
        L2.output_loss = L.output_loss → L2.diff_loss = L.diff_loss →
        lossNonChunked decode_hints decode_diffs L2 net params rng_key feedback
          = lossNonChunked decode_hints decode_diffs L net params rng_key
              feedback) := by
  constructor
  · unfold lossNonChunked
    rw [hn]
    cases decode_diffs <;> cases decode_hints <;>
      simp [foldl_add_map_sum, add_assoc]
  · intro hdh L2 h1 h2
    subst hdh
    unfold lossNonChunked
    simp [hn, h1, h2]

/-- Concrete loss collaborators for the C2 witness run. -/
def c2_L : LossFns :=
  { output_loss := fun _ p n0 => p + n0,
    diff_loss := fun a b l => a + b + l,
    hint_loss := fun _ p _ _ _ _ => p.sum + 1 }

/-- Concrete network collaborator for the C2 witness run. -/
def c2_net : NetApply :=
  fun _ _ _ _ =>
    { output_preds := fun _ => 2, hint_preds := [fun _ => 3],
      diff_logits := 4, gt_diffs := 5 }

/-- Concrete feedback with one node input over 6 nodes, one hint and one
output. -/
def c2_feedback : Feedback :=
  { features := { inputs := [{ name := "A", location := Location.NODE,
                               data := { shape := [1, 6] } }],
                  hints := [{ name := "h", location := Location.GRAPH,
                              data := { shape := [1, 2] } }],
                  lengths := 10 },
    outputs := [{ name := "o", location := Location.GRAPH,
                  data := { shape := [1, 3] } }] }

/-- Witness for C2: at the concrete run the loss is
`(2 + 6) + (4 + 5 + 10) + (3 + 1) = 31`. -/
theorem update_loss_decomposition_witness :
    (_nb_nodes c2_feedback false = some 6) ∧
    lossNonChunked true true c2_L c2_net [] 0 c2_feedback = some 31 :=
  ⟨by rfl,
   (update_loss_decomposition true true c2_L c2_net [] 0 c2_feedback 6
     (by rfl)).1⟩

/-- C3: a successful chunked `update` replaces the held message-passing
state with exactly the auxiliary state returned by the chunked network
apply, called with both toggles false against the currently held state; the
optimizer step touches only the parameters and the optimizer state, via
`_update_params` on the gradients. -/
theorem chunked_update_threads_mp_state
    (decode_hints decode_diffs freeze_processor : Bool)
    (L : LossFnsChunked) (net : NetApplyChunked) (gradFn : GradFn)
    (opt : Optimizer) (rng_key : Int) (st : ChunkedModelState)
    (feedback : Feedback) (st2 : ChunkedModelState) (lss : Int)
    (h : BaselineModelChunked.update decode_hints decode_diffs
        freeze_processor L net gradFn opt rng_key st feedback
      = some (st2, lss)) :
    st2.mp_state
      = (net st.params rng_key feedback.features st.mp_state false false).2 ∧
    st2.params = (_update_params freeze_processor opt st.params
        (gradFn st.params rng_key feedback) st.opt_state).1 ∧
    st2.opt_state = (_update_params freeze_processor opt st.params
        (gradFn st.params rng_key feedback) st.opt_state).2 := by
  unfold BaselineModelChunked.update net_fn_apply_chunked at h
  cases hn : _nb_nodes feedback true with
  | none => simp [hn] at h
  | some n =>
    simp only [hn] at h
    obtain ⟨hst, hlss⟩ := by simpa using h
    rw [← hst]
    exact ⟨rfl, rfl, rfl⟩

/-- Concrete chunked network for the C3 witness: it increments the
message-passing state's tag. -/
def c3_net : NetApplyChunked :=
  fun _ _ _ mp _ _ =>
    ({ output_preds := fun _ => 0, hint_preds := fun _ => 0,
       diff_logits := 0, gt_diffs := 0 },
     { tag := mp.tag + 1 })

/-- Concrete chunked loss collaborators returning zero. -/
def c3_L : LossFnsChunked :=
  { output_loss_chunked := fun _ _ _ _ => 0,
    diff_loss_chunked := fun _ _ _ => 0,
    hint_loss_chunked := fun _ _ _ _ _ _ => 0 }

/-- Concrete optimizer for the C3 witness. -/
def c3_opt : Optimizer :=
  { update := fun grads s => (grads, s + 1) }

/-- Concrete gradient collaborator for the C3 witness. -/
def c3_gradFn : GradFn :=
  fun _ _ _ => []

/-- Concrete held state for the C3 witness. -/
def c3_st : ChunkedModelState :=
  { params := [], opt_state := 0, mp_state := { tag := 0 } }

/-- Concrete chunked feedback: one node input shaped time x batch x nodes. -/
def c3_feedback : Feedback :=
  { features := { inputs := [{ name := "A", location := Location.NODE,
                               data := { shape := [2, 1, 4] } }],
                  hints := [] },
    outputs := [] }

/-- Resulting held state of the C3 witness run. -/
def c3_st2 : ChunkedModelState :=
  { params := [], opt_state := 1, mp_state := { tag := 1 } }

/-- Witness for C3: the concrete chunked update succeeds and its
message-passing state, parameters and optimizer state are as the theorem
says. -/
theorem chunked_update_threads_mp_state_witness :
    (BaselineModelChunked.update false false false c3_L c3_net c3_gradFn
        c3_opt 0 c3_st c3_feedback = some (c3_st2, 0)) ∧
    (c3_st2.mp_state
      = (c3_net c3_st.params 0 c3_feedback.features c3_st.mp_state false
          false).2 ∧
     c3_st2.params = (_update_params false c3_opt c3_st.params
        (c3_gradFn c3_st.params 0 c3_feedback) c3_st.opt_state).1 ∧
     c3_st2.opt_state = (_update_params false c3_opt c3_st.params
        (c3_gradFn c3_st.params 0 c3_feedback) c3_st.opt_state).2) :=
  ⟨by rfl,
   chunked_update_threads_mp_state false false false c3_L c3_net c3_gradFn
     c3_opt 0 c3_st c3_feedback c3_st2 0 (by rfl)⟩

/-- C7: saving and then restoring (processor-only flag unset) on a fresh
model with the same checkpoint directory and the same parameter structure
makes the fresh model hold exactly the saved parameters and optimizer
state; the checkpoint is stored at `<checkpoint_path>/<name>` and the
directory exists after the save. -/
theorem save_restore_roundtrip (fs : FileSys) (m fresh : ModelState)
    (file_name : String)
    (hpath : fresh.checkpoint_path = m.checkpoint_path)
    (hkeys : ∀ e ∈ fresh.params, hasParam m.params e.module e.key = true) :
    restore_model (save_model fs m file_name) fresh file_name false
      = .ok { fresh with params := m.params, opt_state := m.opt_state } ∧
    (save_model fs m file_name).files.lookup
        (path_join m.checkpoint_path file_name)
      = some { params := m.params, opt_state := m.opt_state } ∧
    (save_model fs m file_name).dirs.contains m.checkpoint_path = true := by
  refine ⟨?_, ?_, ?_⟩
  · unfold restore_model save_model
    simp only [hpath]
    simp [List.lookup, mergeParams_eq_right fresh.params m.params hkeys]
  · unfold save_model
    simp [List.lookup]
  · unfold save_model
    by_cases h : m.checkpoint_path ∈ fs.dirs
    · simp [h]
    · simp [h]

/-- Starting file system for the C7 witness run. -/
def c7_fs : FileSys :=
  { dirs := [], files := [] }

/-- Saved model state for the C7 witness run. -/
def c7_m : ModelState :=
  { checkpoint_path := "/tmp/clrs3",
    params := [{ module := "a", key := "w", value := 1 }], opt_state := 5 }

/-- Fresh model state (same structure, different values) for the C7
witness run. -/
def c7_fresh : ModelState :=
  { checkpoint_path := "/tmp/clrs3",
    params := [{ module := "a", key := "w", value := 0 }], opt_state := 9 }

/-- Witness for C7: the concrete round trip restores the saved pair
exactly, at the expected path, with the directory created. -/
theorem save_restore_roundtrip_witness :
    restore_model (save_model c7_fs c7_m "checkpoint.pkl") c7_fresh
        "checkpoint.pkl" false
      = .ok { c7_fresh with params := c7_m.params,
                            opt_state := c7_m.opt_state } ∧
    (save_model c7_fs c7_m "checkpoint.pkl").files.lookup
        (path_join c7_m.checkpoint_path "checkpoint.pkl")
      = some { params := c7_m.params, opt_state := c7_m.opt_state } ∧
    (save_model c7_fs c7_m "checkpoint.pkl").dirs.contains
        c7_m.checkpoint_path = true :=
  save_restore_roundtrip c7_fs c7_m c7_fresh "checkpoint.pkl" (by rfl)
    (by decide)

/-- C8: a processor-only restore changes only the processor partition of
the held parameters — every leaf whose module path lacks the
`construct_processor` substring keeps exactly its previous value. -/
theorem restore_only_processor_preserves_others (fs : FileSys)
    (m : ModelState) (file_name : String) (m2 : ModelState)
    (mod k : String)
    (h : restore_model fs m file_name true = .ok m2)
    (hmod : strIn "construct_processor" mod = false) :
    lookupParam m2.params mod k = lookupParam m.params mod k := by
  unfold restore_model at h
  cases hf : fs.files.lookup (path_join m.checkpoint_path file_name) with
  | none => simp [hf] at h
  | some ck =>
    simp only [hf] at h
    have hm2 : { m with
        params := mergeParams m.params (_filter_processor ck.params),
        opt_state := ck.opt_state } = m2 := by
      simpa using h
    rw [← hm2]
    exact lookupParam_mergeParams_of_not_right _ _ _ _
      (hasParam_filter_processor_eq_false _ _ _ hmod)

/-- Held model state before the C8 witness restore. -/
def c8_m : ModelState :=
  { checkpoint_path := "/tmp/clrs3",
    params := [{ module := "encoder", key := "w", value := 7 }],
    opt_state := 0 }

/-- Checkpoint contents for the C8 witness restore: a processor leaf and a
different value for the encoder leaf. -/
def c8_ck : Checkpoint :=
  { params := [{ module := "construct_processor/m", key := "w", value := 3 },
               { module := "encoder", key := "w", value := 9 }],
    opt_state := 11 }

/-- File system holding the C8 witness checkpoint. -/
def c8_fs : FileSys :=
  { dirs := ["/tmp/clrs3"], files := [("/tmp/clrs3/step1", c8_ck)] }

/-- Model state after the C8 witness restore: the processor leaf was merged
in, the encoder leaf kept its old value 7 (not the checkpoint's 9). -/
def c8_m2 : ModelState :=
  { checkpoint_path := "/tmp/clrs3",
    params := [{ module := "encoder", key := "w", value := 7 },
               { module := "construct_processor/m", key := "w", value := 3 }],
    opt_state := 11 }

/-- Witness for C8: the concrete processor-only restore succeeds and the
non-processor leaf is unchanged. -/
theorem restore_only_processor_preserves_others_witness :
    (restore_model c8_fs c8_m "step1" true = .ok c8_m2) ∧
    lookupParam c8_m2.params "encoder" "w"
      = lookupParam c8_m.params "encoder" "w" :=
  ⟨by rfl,
   restore_only_processor_preserves_others c8_fs c8_m "step1" c8_m2
     "encoder" "w" (by rfl) (by rfl)⟩

/-- C9: every successful restore — whatever the processor-only flag —
replaces the held optimizer state wholesale with the checkpoint's
`opt_state`. -/
theorem restore_replaces_opt_state_wholesale (fs : FileSys) (m : ModelState)
    (file_name : String) (only_load_processor : Bool) (m2 : ModelState)
    (ck : Checkpoint)
    (h : restore_model fs m file_name only_load_processor = .ok m2)
    (hf : fs.files.lookup (path_join m.checkpoint_path file_name)
      = some ck) :
    m2.opt_state = ck.opt_state := by
  unfold restore_model at h
  simp only [hf] at h
  have hm2 : { m with
      params := mergeParams m.params
        (if only_load_processor then _filter_processor ck.params
         else ck.params),
      opt_state := ck.opt_state } = m2 := by
    simpa using h
  rw [← hm2]

/-- Held model state before the C9 witness restore. -/
def c9_m : ModelState :=
  { checkpoint_path := "/ckpt",
    params := [{ module := "encoder", key := "w", value := 2 }],
    opt_state := 100 }

/-- Checkpoint contents for the C9 witness restore. -/
def c9_ck : Checkpoint :=
  { params := [{ module := "construct_processor/m", key := "w", value := 4 }],
    opt_state := 42 }

/-- File system holding the C9 witness checkpoint. -/
def c9_fs : FileSys :=
  { dirs := ["/ckpt"], files := [("/ckpt/best", c9_ck)] }

/-- Model state after the C9 witness restore with the processor-only flag
set: parameters merged, optimizer state replaced by the checkpoint's 42. -/
def c9_m2 : ModelState :=
  { checkpoint_path := "/ckpt",
    params := [{ module := "encoder", key := "w", value := 2 },
               { module := "construct_processor/m", key := "w", value := 4 }],
    opt_state := 42 }

/-- Witness for C9: the concrete processor-only restore succeeds and the
held optimizer state equals the checkpoint's. -/
theorem restore_replaces_opt_state_wholesale_witness :
    (restore_model c9_fs c9_m "best" true = .ok c9_m2) ∧
    c9_m2.opt_state = c9_ck.opt_state :=
  ⟨by rfl,
   restore_replaces_opt_state_wholesale c9_fs c9_m "best" true c9_m2 c9_ck
     (by rfl) (by rfl)⟩

end Clrs
